import Mathlib

/-!
Verification of the resource-lifecycle / connection-management core of the
go-monorepo-playground repository: the shutdown registry (`ShutdownManager`
and its `Cleanup` method, identical across the queue, db and observability
packages), the NATS connection manager (`Client` with `Publish`, `Subscribe`,
`Close`, `IsConnected`), and the setup orchestrators (`queue.Setup`,
`db.Setup`).

Embedding conventions:
- Go `error` values are `Option String` (`none` = nil error).
- `errors.Join` aggregation is modelled by the ordered list of non-nil
  callback errors; the joined error is nil iff that list is empty.
- `context.Context` arguments (and the per-registry timeout ceilings of 10s
  and 15s) are not modelled: they only bound wall-clock time and no claim
  here depends on them. Each cleanup callback's outcome is given by an
  interpretation function `run` on the registered entries.
- Pointers that Go may return as nil are `Option`s.
- External transport calls (nats.Connect, nc.Publish, nc.Subscribe,
  nc.Drain, pgxpool acquisition) are parameters of the embedding: the
  environment's response is a field of a `Conn` or a function argument.
-/

namespace GoMonorepo

/-- One Go `time.Second` in `time.Duration` units (nanoseconds). -/
def second : Nat := 1000000000

/-- `ShutdownManager` as defined (identically) in pkg/queue, pkg/db and
pkg/observability: an ordered list of registered cleanup callbacks.
The callback payload type `F` is abstract; an interpretation
`run : F → Option String` gives each callback's outcome when invoked. -/
structure ShutdownManager (F : Type) where
  cleanupFuncs : List F
deriving DecidableEq

/-- `err = errors.Join(err, r)` on the aggregate-list model: a nil result
leaves the aggregate unchanged, a non-nil result is appended. -/
def joinErr (errs : List String) (r : Option String) : List String :=
  match r with
  | none => errs
  | some e => errs ++ [e]

/-- The loop body of `Cleanup`: `for i := len-1; i >= 0; i--` over `fns`,
invoking `fns[i]` and joining its error. The first argument counts the
indices still to execute (`i` means indices `i-1` down to `0` remain, the
highest first). Returns the trace of invoked callbacks in execution order
together with the aggregated error list. -/
def cleanupDown {F : Type} (run : F → Option String) (fns : List F) :
    Nat → List String → List F × List String
  | 0, errs => ([], errs)
  | i + 1, errs =>
    match fns[i]? with
    | some fn =>
      let rest := cleanupDown run fns i (joinErr errs (run fn))
      (fn :: rest.1, rest.2)
    | none => cleanupDown run fns i errs

/-- `ShutdownManager.Cleanup`: executes every registered callback in reverse
registration order, joining errors. The method only reads `cleanupFuncs`
(the Go loop never reassigns the slice), so the post-state manager is
returned unchanged. Result: (post-state, invocation trace, aggregate errors). -/
def ShutdownManager.Cleanup {F : Type} (run : F → Option String)
    (s : ShutdownManager F) : ShutdownManager F × List F × List String :=
  let r := cleanupDown run s.cleanupFuncs s.cleanupFuncs.length []
  (s, r.1, r.2)

theorem cleanupDown_spec {F : Type} (run : F → Option String) (fns : List F) :
    ∀ i, i ≤ fns.length → ∀ errs,
      cleanupDown run fns i errs =
        ((fns.take i).reverse, errs ++ ((fns.take i).reverse.filterMap run)) := by
  intro i
  induction i with
  | zero => intro _ errs; simp [cleanupDown]
  | succ i ih =>
    intro h errs
    have hi : i < fns.length := Nat.lt_of_succ_le h
    have hget : fns[i]? = some (fns.get ⟨i, hi⟩) := by
      rw [List.getElem?_eq_getElem hi]
      rfl
    have htake : fns.take (i + 1) = fns.take i ++ [fns.get ⟨i, hi⟩] := by
      rw [List.take_succ, hget]
      rfl
    rw [cleanupDown, hget]
    simp only [ih (Nat.le_of_lt hi), htake, List.reverse_append,
      List.reverse_singleton, List.singleton_append, List.filterMap_cons]
    cases hr : run (fns.get ⟨i, hi⟩) <;> simp [joinErr, hr, List.append_assoc]

theorem cleanup_trace_eq_reverse {F : Type} (run : F → Option String)
    (s : ShutdownManager F) :
    (s.Cleanup run).2.1 = s.cleanupFuncs.reverse := by
  unfold ShutdownManager.Cleanup
  rw [cleanupDown_spec run s.cleanupFuncs s.cleanupFuncs.length (Nat.le_refl _)]
  simp

theorem cleanup_errs_eq_filterMap {F : Type} (run : F → Option String)
    (s : ShutdownManager F) :
    (s.Cleanup run).2.2 = s.cleanupFuncs.reverse.filterMap run := by
  unfold ShutdownManager.Cleanup
  rw [cleanupDown_spec run s.cleanupFuncs s.cleanupFuncs.length (Nat.le_refl _)]
  simp

/-- C1: `Cleanup` invokes the registered callbacks in exactly the reverse
order of registration — the invocation trace is the reversal of
`cleanupFuncs` — so each registered callback is attempted exactly once and
none is skipped, whatever the outcomes `run` assigns to earlier callbacks. -/
theorem C1_cleanup_reverse_order {F : Type} (run : F → Option String)
    (s : ShutdownManager F) :
    (s.Cleanup run).2.1 = s.cleanupFuncs.reverse :=
  cleanup_trace_eq_reverse run s

/-- C2: even when some callbacks fail, every callback still executes (the
trace is the full reversed list) and the aggregate error is exactly the
list of failing callbacks' errors in execution order; in particular when
every callback succeeds the aggregate is nil (empty). -/
theorem C2_cleanup_error_aggregate {F : Type} (run : F → Option String)
    (s : ShutdownManager F) :
    (s.Cleanup run).2.1 = s.cleanupFuncs.reverse
    ∧ (s.Cleanup run).2.2 = s.cleanupFuncs.reverse.filterMap run
    ∧ ((∀ fn ∈ s.cleanupFuncs, run fn = none) → (s.Cleanup run).2.2 = []) := by
  refine ⟨cleanup_trace_eq_reverse run s, cleanup_errs_eq_filterMap run s, ?_⟩
  intro hall
  rw [cleanup_errs_eq_filterMap run s]
  rw [List.filterMap_eq_nil_iff]
  intro fn hfn
  exact hall fn (List.mem_reverse.mp hfn)

/-- Witness for C2 at a concrete registry: callbacks 1,2,3 where odd ones
fail, and the all-succeed corollary at a registry whose callbacks all
return nil. -/
theorem C2_cleanup_error_aggregate_witness :
    ((⟨[10, 20]⟩ : ShutdownManager Nat).Cleanup (fun _ => none)).2.2 = [] :=
  (C2_cleanup_error_aggregate (fun _ => none) ⟨[10, 20]⟩).2.2
    (fun _ _ => rfl)

/-- C3 counterexample: `Cleanup` does not drain the callback list, so after
one completed `Cleanup` a second call on the resulting registry state
invokes the registered callback again — its trace is `[0]`, not `[]`. -/
theorem C3_second_cleanup_counterexample :
    ¬ ((((⟨[0]⟩ : ShutdownManager Nat).Cleanup (fun _ => none)).1.Cleanup
          (fun _ => none)).2.1 = []) := by
  decide

/-- C3 (amended): `Cleanup` leaves the registry unchanged (the Go method
only reads `cleanupFuncs`), so a second call re-invokes every registered
callback in the same reverse order rather than operating on a drained
list; it invokes zero callbacks only when the registry was empty. -/
theorem C3_cleanup_does_not_drain {F : Type} (run : F → Option String)
    (s : ShutdownManager F) :
    (s.Cleanup run).1 = s
    ∧ ((s.Cleanup run).1.Cleanup run).2.1 = s.cleanupFuncs.reverse :=
  ⟨rfl, cleanup_trace_eq_reverse run s⟩

/-! ### NATS connection manager (pkg/queue/nats) -/

/-- Connection status of the underlying `nats.Conn` transport handle. -/
inductive NatsStatus where
  | DISCONNECTED
  | CONNECTED
  | CLOSED
  | RECONNECTING
  | CONNECTING
  | DRAINING_SUBS
  | DRAINING_PUBS
deriving DecidableEq

/-- A subscription handle returned by the transport. -/
structure Subscription where
  sid : Nat
deriving DecidableEq

/-- An inbound-message handler token; its behaviour is opaque to the
connection manager (invoked by the transport, not modelled here). -/
structure MsgHandler where
  hid : Nat
deriving DecidableEq

/-- The external `nats.Conn` transport handle. Its status and the responses
it would give to the transport calls the client makes (`Publish`,
`Subscribe`, `Drain`) are abstract state of the environment. -/
structure Conn where
  status : NatsStatus
  publishErr : Option String
  subscribeRes : Except String Subscription
  drainErr : Option String

/-- `nats.Conn.IsConnected()`: status is exactly CONNECTED. -/
def Conn.IsConnected (nc : Conn) : Bool :=
  nc.status = NatsStatus.CONNECTED

/-- `nats.Conn.IsClosed()`: status is CLOSED. -/
def Conn.IsClosed (nc : Conn) : Bool :=
  nc.status = NatsStatus.CLOSED

/-- Options for the NATS client (natsclient.Options). Durations are in
`time.Duration` units (nanoseconds); `MaxReconnects` is an `int`
(-1 means infinite). -/
structure Options where
  URL : String
  Name : String
  ReconnectWait : Nat
  MaxReconnects : Int
  DrainTimeout : Nat := 0
deriving DecidableEq

/-- `Client` wraps the NATS connection: a nullable transport handle plus the
options it was created with. (The `sync.RWMutex` serialises access; the
sequential embedding needs no lock.) -/
structure Client where
  nc : Option Conn
  opts : Options

/-- `Client.Publish`: fails fast with the not-connected error when the
transport handle is nil or its status is not CONNECTED; otherwise forwards
the payload once to the transport and returns the transport's own result —
no buffering and no retry. Returns the Go `error` result. -/
def Client.Publish (c : Client) (subject : String) (data : List UInt8) :
    Option String :=
  match c.nc with
  | none => some "NATS client is not connected"
  | some nc =>
    if ¬ nc.IsConnected then some "NATS client is not connected"
    else nc.publishErr

/-- `Client.Subscribe`: same connected-state precondition as `Publish`;
on success returns the transport's subscription handle, wrapping a
transport-level subscribe failure with context. -/
def Client.Subscribe (c : Client) (subject : String) (handler : MsgHandler) :
    Except String Subscription :=
  match c.nc with
  | none => Except.error "NATS client is not connected"
  | some nc =>
    if ¬ nc.IsConnected then Except.error "NATS client is not connected"
    else
      match nc.subscribeRes with
      | Except.error e =>
        Except.error ("failed to subscribe to subject " ++ subject ++ ": " ++ e)
      | Except.ok sub => Except.ok sub

/-- What `Client.Close` did: a successful drain (which closes the connection
itself), a forced `nc.Close()` after a drain failure, or nothing because the
handle was already nil or the connection already closed. -/
inductive CloseAction where
  | drained
  | forcedClose
  | noop
deriving DecidableEq

/-- `Client.Close`: when the handle is non-nil and the connection is not
already closed, drains (falling back to a forced close if `Drain()` errors)
and then sets the handle to nil regardless of the drain outcome; otherwise
it only logs and leaves the state untouched. Returns the post-state client
and the action taken. (The Go method returns no error; drain failures are
logged and swallowed.) -/
def Client.Close (c : Client) : Client × CloseAction :=
  match c.nc with
  | some nc =>
    if ¬ nc.IsClosed then
      match nc.drainErr with
      | some _ => ({ c with nc := none }, CloseAction.forcedClose)
      | none => ({ c with nc := none }, CloseAction.drained)
    else (c, CloseAction.noop)
  | none => (c, CloseAction.noop)

/-- `Client.IsConnected`: nil-checks the handle, then asks the transport. -/
def Client.IsConnected (c : Client) : Bool :=
  match c.nc with
  | some nc => nc.IsConnected
  | none => false

/-- C4: whenever the transport handle is absent or the underlying connection
is not in the CONNECTED state, `Publish` and `Subscribe` both return the
not-connected error synchronously (the embedding is a total function: no
panic, and the `Publish` definition forwards at most once — no buffering or
retry). -/
theorem C4_publish_subscribe_not_connected (c : Client) (subject : String)
    (data : List UInt8) (handler : MsgHandler)
    (h : c.nc = none ∨ ∃ nc, c.nc = some nc ∧ nc.status ≠ NatsStatus.CONNECTED) :
    c.Publish subject data = some "NATS client is not connected"
    ∧ c.Subscribe subject handler = Except.error "NATS client is not connected" := by
  rcases h with h | ⟨nc, hnc, hs⟩
  · simp [Client.Publish, Client.Subscribe, h]
  · simp [Client.Publish, Client.Subscribe, hnc, Conn.IsConnected, hs]

/-- Witness for C4: a client that was closed (handle nil) and a client whose
connection is RECONNECTING both answer the not-connected error. -/
theorem C4_publish_subscribe_not_connected_witness :
    (Client.mk none ⟨"nats:4222", "demo", 0, 0, 0⟩).Publish "greet.world" []
      = some "NATS client is not connected"
    ∧ (Client.mk none ⟨"nats:4222", "demo", 0, 0, 0⟩).Subscribe "greet.world" ⟨0⟩
      = Except.error "NATS client is not connected" :=
  C4_publish_subscribe_not_connected
    (Client.mk none ⟨"nats:4222", "demo", 0, 0, 0⟩) "greet.world" [] ⟨0⟩
    (Or.inl rfl)

/-- C5: on a client whose handle is present and whose connection is not
already closed, `Close` always releases the transport handle (sets it to
nil) — whether the drain succeeded or failed — so `IsConnected` is false
afterwards; a drain failure yields the forced-close fallback, a clean drain
the drained outcome. -/
theorem C5_close_releases_transport (c : Client) (nc : Conn)
    (hnc : c.nc = some nc) (hopen : nc.status ≠ NatsStatus.CLOSED) :
    c.Close.1.nc = none
    ∧ c.Close.1.IsConnected = false
    ∧ (nc.drainErr ≠ none → c.Close.2 = CloseAction.forcedClose)
    ∧ (nc.drainErr = none → c.Close.2 = CloseAction.drained) := by
  cases hd : nc.drainErr <;>
    simp [Client.Close, Client.IsConnected, Conn.IsClosed, hnc, hopen, hd]

/-- Witness for C5: a connected client whose transport would fail the drain
is forcibly closed, ends with an absent handle and reports not connected. -/
theorem C5_close_releases_transport_witness :
    (Client.mk (some ⟨NatsStatus.CONNECTED, none, Except.ok ⟨1⟩, some "drain timeout"⟩)
        ⟨"nats:4222", "demo", 0, 0, 0⟩).Close.1.nc = none
    ∧ (Client.mk (some ⟨NatsStatus.CONNECTED, none, Except.ok ⟨1⟩, some "drain timeout"⟩)
        ⟨"nats:4222", "demo", 0, 0, 0⟩).Close.1.IsConnected = false
    ∧ (Client.mk (some ⟨NatsStatus.CONNECTED, none, Except.ok ⟨1⟩, some "drain timeout"⟩)
        ⟨"nats:4222", "demo", 0, 0, 0⟩).Close.2 = CloseAction.forcedClose := by
  have h := C5_close_releases_transport
    (Client.mk (some ⟨NatsStatus.CONNECTED, none, Except.ok ⟨1⟩, some "drain timeout"⟩)
      ⟨"nats:4222", "demo", 0, 0, 0⟩)
    ⟨NatsStatus.CONNECTED, none, Except.ok ⟨1⟩, some "drain timeout"⟩
    rfl (by decide)
  exact ⟨h.1, h.2.1, h.2.2.1 (by decide)⟩

/-- C6: `Close` is idempotent — after any first `Close` has completed, a
second `Close` on the resulting client leaves the state unchanged and takes
the no-op action: it does not re-attempt the drain (and the Go method
returns no error at all). -/
theorem C6_close_idempotent (c : Client) :
    c.Close.1.Close = (c.Close.1, CloseAction.noop) := by
  rcases hc : c.nc with _ | nc
  · simp [Client.Close, hc]
  · by_cases h : nc.status = NatsStatus.CLOSED
    · simp [Client.Close, hc, Conn.IsClosed, h]
    · cases hd : nc.drainErr <;> simp [Client.Close, hc, Conn.IsClosed, h, hd]

/-! ### NATS client construction and the queue setup orchestrator
(pkg/queue). The single external `nats.Connect` call is a parameter
`connect : String → Options → Except String Conn` giving the environment's
response to connecting at a URL with the (defaulted) options. -/

/-- The defaulting `NewClient` performs on its options before connecting:
ReconnectWait 0 ↦ 2s, MaxReconnects 0 ↦ 60, DrainTimeout 0 ↦ 10s. -/
def applyDefaults (opts : Options) : Options :=
  let o1 := if opts.ReconnectWait = 0
    then { opts with ReconnectWait := 2 * second } else opts
  let o2 := if o1.MaxReconnects = 0
    then { o1 with MaxReconnects := 60 } else o1
  if o2.DrainTimeout = 0 then { o2 with DrainTimeout := 10 * second } else o2

/-- `natsclient.NewClient`: applies option defaults, connects once (no
retry on initial connect), and on success wraps the live transport handle;
a connect failure is wrapped and returned. -/
def NewClient (connect : String → Options → Except String Conn)
    (opts : Options) : Except String Client :=
  let opts := applyDefaults opts
  match connect opts.URL opts with
  | Except.error e =>
    Except.error ("failed to connect to NATS at " ++ opts.URL ++ ": " ++ e)
  | Except.ok nc => Except.ok { nc := some nc, opts := opts }

namespace Queue

/-- The queue configuration fields consumed by `queue.Setup` / `setupNats`
(pkg/queue/config). -/
structure Config where
  NatsEnabled : Bool
  NatsURL : String
  NatsClientName : String
  NatsReconnectWait : Nat
  NatsMaxReconnects : Int
deriving DecidableEq

/-- The `natsclient.Options` value `setupNats` builds from the queue
config (DrainTimeout is not configured there and stays zero). -/
def natsOptsOf (cfg : Config) : Options :=
  { URL := cfg.NatsURL
    Name := cfg.NatsClientName
    ReconnectWait := cfg.NatsReconnectWait
    MaxReconnects := cfg.NatsMaxReconnects
    DrainTimeout := 0 }

/-- A cleanup entry registered by the queue orchestrator: the closure that
closes the NATS client (it invokes `client.Close()` and returns nil). -/
inductive QueueCleanup where
  | closeClient (c : Client)

/-- Outcome of invoking a queue cleanup entry: the registered closure
always returns a nil error (drain problems are logged inside `Close`). -/
def runQueueCleanup : QueueCleanup → Option String
  | QueueCleanup.closeClient _ => none

/-- `queue.setupNats`: builds the options from the config, creates the
client, and on success appends the close-client cleanup to the shutdown
manager; on failure returns a wrapped error and an untouched manager. -/
def setupNats (connect : String → Options → Except String Conn)
    (cfg : Config) (sm : ShutdownManager QueueCleanup) :
    Option Client × ShutdownManager QueueCleanup × Option String :=
  match NewClient connect (natsOptsOf cfg) with
  | Except.error e =>
    (none, sm, some ("natsclient.NewClient failed: " ++ e))
  | Except.ok client =>
    (some client,
     { sm with cleanupFuncs := sm.cleanupFuncs ++ [QueueCleanup.closeClient client] },
     none)

/-- `queue.Setup`: starts from a fresh (non-nil, returned as `some`)
shutdown manager; attempts NATS setup only when enabled; logs and then
resets any non-critical setup error to nil before returning, so the caller
never sees an acquisition failure. -/
def Setup (connect : String → Options → Except String Conn) (cfg : Config) :
    Option Client × Option (ShutdownManager QueueCleanup) × Option String :=
  let shutdownManager : ShutdownManager QueueCleanup := { cleanupFuncs := [] }
  let res :=
    if cfg.NatsEnabled then setupNats connect cfg shutdownManager
    else (none, shutdownManager, none)
  -- Reset non-critical errors to nil before returning (they are only logged)
  let err := if res.2.2.isSome then none else res.2.2
  (res.1, some res.2.1, err)

end Queue

namespace Db

/-- The database configuration fields consumed by `db.Setup`
(pkg/db/config); pool-tuning fields are carried opaquely to the external
`postgres.NewClient` acquisition. -/
structure Config where
  DbEnabled : Bool
  DbHost : String
  DbPort : Nat
  DbUser : String
  DbPassword : String
  DbName : String
  DbSSLMode : String
  DbMaxConns : Int
  DbMinConns : Int
  DbMaxConnLifetime : Nat
  DbMaxConnIdleTime : Nat
  DbConnectTimeout : Nat
deriving DecidableEq

/-- A PostgreSQL client handle (`postgres.PgxClient`); its pool is opaque. -/
structure PgxClient where
  poolId : Nat
deriving DecidableEq

/-- A cleanup entry registered by the db orchestrator: the closure that
closes the pgx pool (returns nil — `pgxpool.Pool.Close()` has no error). -/
inductive DbCleanup where
  | closePool (c : PgxClient)
deriving DecidableEq

/-- Outcome of invoking a db cleanup entry: always nil. -/
def runDbCleanup : DbCleanup → Option String
  | DbCleanup.closePool _ => none

/-- `db.Setup`: starts from a fresh (non-nil, returned as `some`) shutdown
manager; when enabled, attempts acquisition via `postgres.NewClient`
(external, a parameter `pgNew`); on failure keeps a nil client and only
logs (the `setupErr` assignment in the source is commented out, so
`setupErr` is never set); on success registers the pool-close cleanup. -/
def Setup (pgNew : Config → Except String PgxClient) (cfg : Config) :
    Option PgxClient × Option (ShutdownManager DbCleanup) × Option String :=
  let shutdownManager : ShutdownManager DbCleanup := { cleanupFuncs := [] }
  let setupErr : Option String := none
  if cfg.DbEnabled then
    match pgNew cfg with
    | Except.error _ => (none, some shutdownManager, setupErr)
    | Except.ok client =>
      (some client,
       some { shutdownManager with
                cleanupFuncs :=
                  shutdownManager.cleanupFuncs ++ [DbCleanup.closePool client] },
       setupErr)
  else
    (none, some shutdownManager, setupErr)

end Db

/-- A live connection the demo environment hands out on connect. -/
def demoConn : Conn :=
  ⟨NatsStatus.CONNECTED, none, Except.ok ⟨1⟩, none⟩

/-- Queue configuration with NATS enabled (defaults of pkg/queue/config). -/
def demoQueueCfgOn : Queue.Config :=
  ⟨true, "nats:4222", "go-monorepo-playground", 2 * second, -1⟩

/-- Queue configuration with NATS disabled. -/
def demoQueueCfgOff : Queue.Config :=
  ⟨false, "nats:4222", "go-monorepo-playground", 2 * second, -1⟩

/-- An environment whose connect attempt always succeeds with `demoConn`. -/
def connectOk : String → Options → Except String Conn :=
  fun _ _ => Except.ok demoConn

/-- An environment whose connect attempt always fails. -/
def connectRefused : String → Options → Except String Conn :=
  fun _ _ => Except.error "connection refused"

/-- C7: with NATS disabled by configuration, `queue.Setup` skips acquisition
entirely: nil client handle, nil error, and a (non-nil) shutdown manager
with no registered callbacks, so a later `Cleanup` invokes zero callbacks. -/
theorem C7_setup_disabled_skips
    (connect : String → Options → Except String Conn) (cfg : Queue.Config)
    (h : cfg.NatsEnabled = false) :
    (Queue.Setup connect cfg).1 = none
    ∧ (Queue.Setup connect cfg).2.2 = none
    ∧ (Queue.Setup connect cfg).2.1 = some ⟨[]⟩
    ∧ ((⟨[]⟩ : ShutdownManager Queue.QueueCleanup).Cleanup
         Queue.runQueueCleanup).2.1 = [] := by
  refine ⟨?_, ?_, ?_, rfl⟩ <;> simp [Queue.Setup, h]

/-- Witness for C7 at the default queue configuration with NATS disabled. -/
theorem C7_setup_disabled_skips_witness :
    (Queue.Setup connectRefused demoQueueCfgOff).1 = none
    ∧ (Queue.Setup connectRefused demoQueueCfgOff).2.2 = none
    ∧ (Queue.Setup connectRefused demoQueueCfgOff).2.1 = some ⟨[]⟩
    ∧ ((⟨[]⟩ : ShutdownManager Queue.QueueCleanup).Cleanup
         Queue.runQueueCleanup).2.1 = [] :=
  C7_setup_disabled_skips connectRefused demoQueueCfgOff rfl

/-- C8: with NATS enabled but acquisition failing (`NewClient` returns an
error), `queue.Setup` degrades instead of aborting startup: nil client
handle, nothing registered, and a nil returned error — the failure is
logged only and reset before returning. -/
theorem C8_setup_degrades_on_failure
    (connect : String → Options → Except String Conn) (cfg : Queue.Config)
    (e : String) (hen : cfg.NatsEnabled = true)
    (hfail : NewClient connect (Queue.natsOptsOf cfg) = Except.error e) :
    (Queue.Setup connect cfg).1 = none
    ∧ (Queue.Setup connect cfg).2.2 = none
    ∧ (Queue.Setup connect cfg).2.1 = some ⟨[]⟩ := by
  refine ⟨?_, ?_, ?_⟩ <;> simp [Queue.Setup, Queue.setupNats, hen, hfail]

/-- Witness for C8: enabled configuration, environment refuses to connect;
the caller still gets a nil handle and a nil error. -/
theorem C8_setup_degrades_on_failure_witness :
    (Queue.Setup connectRefused demoQueueCfgOn).1 = none
    ∧ (Queue.Setup connectRefused demoQueueCfgOn).2.2 = none
    ∧ (Queue.Setup connectRefused demoQueueCfgOn).2.1 = some ⟨[]⟩ :=
  C8_setup_degrades_on_failure connectRefused demoQueueCfgOn
    "failed to connect to NATS at nats:4222: connection refused" rfl rfl

/-- C9: with NATS enabled and acquisition succeeding, `queue.Setup` returns
a non-absent client handle wrapping the live connection, and its
close-client cleanup function has been appended to the shutdown manager
before the orchestrator returns. -/
theorem C9_setup_success_registers_cleanup
    (connect : String → Options → Except String Conn) (cfg : Queue.Config)
    (conn : Conn) (hen : cfg.NatsEnabled = true)
    (hok : connect (applyDefaults (Queue.natsOptsOf cfg)).URL
             (applyDefaults (Queue.natsOptsOf cfg)) = Except.ok conn) :
    ∃ client, (Queue.Setup connect cfg).1 = some client
      ∧ (Queue.Setup connect cfg).2.1
          = some ⟨[Queue.QueueCleanup.closeClient client]⟩
      ∧ client.nc = some conn := by
  refine ⟨{ nc := some conn, opts := applyDefaults (Queue.natsOptsOf cfg) },
    ?_, ?_, rfl⟩ <;> simp [Queue.Setup, Queue.setupNats, NewClient, hen, hok]

/-- Witness for C9: enabled configuration, environment grants `demoConn`. -/
theorem C9_setup_success_registers_cleanup_witness :
    ∃ client, (Queue.Setup connectOk demoQueueCfgOn).1 = some client
      ∧ (Queue.Setup connectOk demoQueueCfgOn).2.1
          = some ⟨[Queue.QueueCleanup.closeClient client]⟩
      ∧ client.nc = some demoConn :=
  C9_setup_success_registers_cleanup connectOk demoQueueCfgOn demoConn rfl rfl

/-- C10: whatever the configuration and the environment's acquisition
outcome, both `queue.Setup` and `db.Setup` return a present (non-nil)
shutdown manager, so callers may invoke `Cleanup` unconditionally. -/
theorem C10_setup_manager_always_present
    (connect : String → Options → Except String Conn) (qcfg : Queue.Config)
    (pgNew : Db.Config → Except String Db.PgxClient) (dcfg : Db.Config) :
    (Queue.Setup connect qcfg).2.1.isSome = true
    ∧ (Db.Setup pgNew dcfg).2.1.isSome = true := by
  constructor
  · simp [Queue.Setup]
  · by_cases h : dcfg.DbEnabled
    · cases hpg : pgNew dcfg <;> simp [Db.Setup, h, hpg]
    · simp [Db.Setup, h]

end GoMonorepo
